import Mathlib

/-!
Verification development for the `gksbrandon/service` repository.

The development shallowly embeds the user store (package `user`) and the
validation error types (package `validate`) from the source, together with
spec-modelled versions of the collaborators that are consumed through
narrow interfaces (token codec, response writer, `auth.Claims.Authorized`,
`validate.CheckID`, the `database` helpers and bcrypt).

Go `error` values are modelled by the inductive `GoErr`: the package-level
sentinel errors are constructors, `errors.New` is `GoErr.mk`, and
`fmt.Errorf("msg: %w", err)` is `GoErr.wrap "msg" err`.  Machine time is
modelled as `Int` (unix seconds).
-/

namespace Service

deriving instance DecidableEq for Except

/-- `validate.FieldError`: an error with a specific request field
(source: `type FieldError struct { Field string; Error string }`). -/
structure FieldError where
  Field : String
  Error : String
deriving DecidableEq, Repr

/-- Go error values.  Sentinels from the `user`, `database` and `validate`
packages are constructors; `wrap` models `fmt.Errorf` with `%w` (its
`Unwrap` returns the inner error); `mk` models `errors.New` (no unwrap);
`fieldErrs` models a `validate.FieldErrors` value used as an error. -/
inductive GoErr where
  | errNotFound
  | errInvalidID
  | errInvalidEmail
  | errUniqueEmail
  | errAuthenticationFailure
  | errDBNotFound
  | errForbidden
  | mk (msg : String)
  | wrap (msg : String) (inner : GoErr)
  | fieldErrs (fes : List FieldError)
deriving DecidableEq, Repr

/-- `errors.Unwrap`: only an error produced with `%w` wrapping unwraps. -/
def unwrap : GoErr → Option GoErr
  | .wrap _ inner => some inner
  | _ => none

/-- `validate.Cause`: iterates through all the wrapped errors until the root
error value is reached (`root := err; for { if errors.Unwrap(root) == nil
return root; root = errors.Unwrap(root) }`). -/
def Cause : GoErr → GoErr
  | .wrap _ inner => Cause inner
  | e => e

/-- `errors.Is`: the target matches the error itself or anything in its
unwrap chain. -/
def errIs (err target : GoErr) : Bool :=
  if err = target then true
  else
    match err with
    | .wrap _ inner => errIs inner target
    | _ => false

/-- Modelled from the spec: `auth.RoleAdmin`, the admin role name, from the
`auth` package which is not under `src/` (spec §4.1: admin-role holder). -/
def RoleAdmin : String := "ADMIN"

/-- `auth.Claims`: subject identity, roles, validity window, issuer
(the embedded `jwt.RegisteredClaims` fields that the source uses). -/
structure Claims where
  Issuer : String
  Subject : String
  ExpiresAt : Int
  IssuedAt : Int
  Roles : List String
deriving DecidableEq, Repr

/-- Modelled from the spec: `auth.Claims.Authorized` from the `auth` package
which is not under `src/`; spec §4.1: `Authorized(requiredRole) → bool: true
iff the role set contains requiredRole`. -/
def Claims.Authorized (c : Claims) (role : String) : Bool :=
  c.Roles.contains role

/-- `user.User`: the stored user row.  `PasswordHash` (a `[]byte` bcrypt
hash) is modelled as an opaque `String`; timestamps as `Int`. -/
structure User where
  ID : String
  Name : String
  Email : String
  Roles : List String
  PasswordHash : String
  DateCreated : Int
  DateUpdated : Int
deriving DecidableEq, Repr

/-- `user.UpdateUser`: optional (pointer) fields; `none` models a nil
pointer / nil slice and means "leave unchanged". -/
structure UpdateUser where
  Name : Option String
  Email : Option String
  Roles : Option (List String)
  Password : Option String
deriving DecidableEq, Repr

/-- A write (mutating) statement issued to the persistence layer through
`database.NamedExecContext`, with its bound row. -/
inductive WriteCmd where
  | insertUser (u : User)
  | updateUser (u : User)
  | deleteUser (userID : String)
deriving DecidableEq, Repr

/-- The external collaborators consumed by the store through narrow
interfaces (spec §6): `validate.CheckID` / `validate.Check`, the
`database` query helpers bound to the fixed SQL texts of the store, and bcrypt.
Each store operation is parametric in this bundle; the pair returned by a
mutating operation records the `NamedExecContext` calls it issued. -/
structure Collab where
  checkID : String → Bool
  checkUpdateUser : UpdateUser → Option GoErr
  queryStructByID : String → Except GoErr User
  queryStructByEmail : String → Except GoErr User
  querySliceUsers : Int → Int → Except GoErr (List User)
  execNamed : WriteCmd → Option GoErr
  bcryptCompare : String → String → Bool
  bcryptGenerate : String → Except GoErr String

namespace Store

/-- `user.Store.Delete` (source lines 132-159): ID validation, then the
ownership check (`if !claims.Authorized(auth.RoleAdmin) && claims.Subject
!= userID { return database.ErrForbidden }`), then the DELETE statement. -/
def Delete (co : Collab) (claims : Claims) (userID : String) :
    Except GoErr Unit × List WriteCmd :=
  if !(co.checkID userID) then (.error .errInvalidID, [])
  else if !(claims.Authorized RoleAdmin) && claims.Subject != userID then
    (.error .errForbidden, [])
  else
    match co.execNamed (.deleteUser userID) with
    | some err => (.error (.wrap ("deleting userID[" ++ userID ++ "]") err), [.deleteUser userID])
    | none => (.ok (), [.deleteUser userID])

/-- `user.Store.Query` (source lines 162-189): computes the page offset and
runs `database.NamedQuerySlice`; on error it compares the error from the collaborator
against the own sentinel of the user package, namely `ErrNotFound` sentinel (`if err ==
ErrNotFound`) and otherwise wraps it as `"selecting users: %w"`. -/
def Query (co : Collab) (pageNumber rowsPerPage : Int) :
    Except GoErr (List User) :=
  let offset := (pageNumber - 1) * rowsPerPage
  match co.querySliceUsers offset rowsPerPage with
  | .error err =>
    if err = .errNotFound then .error .errNotFound
    else .error (.wrap "selecting users" err)
  | .ok users => .ok users

/-- `user.Store.QueryByID` (source lines 192-229): ID validation, ownership
pre-check against `userID`, `database.NamedQueryStruct` with
`database.ErrDBNotFound` mapped to `ErrNotFound`, then the ownership
post-check against `usr.ID` of the fetched row. -/
def QueryByID (co : Collab) (claims : Claims) (userID : String) :
    Except GoErr User :=
  if !(co.checkID userID) then .error .errInvalidID
  else if !(claims.Authorized RoleAdmin) && claims.Subject != userID then
    .error .errForbidden
  else
    match co.queryStructByID userID with
    | .error err =>
      if err = .errDBNotFound then .error .errNotFound
      else .error (.wrap ("selecting userID[" ++ userID ++ "]") err)
    | .ok usr =>
      if !(claims.Authorized RoleAdmin) && claims.Subject != usr.ID then
        .error .errForbidden
      else .ok usr

/-- `user.Store.QueryByEmail` (source lines 232-265): fetches by email
(every error is wrapped; no not-found mapping), then the ownership check
against `usr.ID` of the fetched row. -/
def QueryByEmail (co : Collab) (claims : Claims) (email : String) :
    Except GoErr User :=
  match co.queryStructByEmail email with
  | .error err => .error (.wrap ("selecting email[" ++ email ++ "]") err)
  | .ok usr =>
    if !(claims.Authorized RoleAdmin) && claims.Subject != usr.ID then
      .error .errForbidden
    else .ok usr

/-- `user.Store.Authenticate` (source lines 268-310): fetches by email
(comparing the error from the collaborator against `ErrNotFound`, the
own sentinel of the user package), compares the bcrypt hash, and on success builds
Claims from `time.Now()` — the `wallClock` parameter models `time.Now().UTC()`
at the moment of the call; the `now` parameter of the source is accepted but
never used by the body. -/
def Authenticate (co : Collab) (wallClock : Int) (now : Int)
    (email password : String) : Except GoErr Claims :=
  match co.queryStructByEmail email with
  | .error err =>
    if err = .errNotFound then .error .errNotFound
    else .error (.wrap ("selecting email[" ++ email ++ "]") err)
  | .ok usr =>
    if !(co.bcryptCompare usr.PasswordHash password) then
      .error .errAuthenticationFailure
    else
      .ok { Issuer := "service project"
            Subject := usr.ID
            ExpiresAt := wallClock + 3600
            IssuedAt := wallClock
            Roles := usr.Roles }

/-- The final `database.NamedExecContext` call of `user.Store.Update` with
the fully patched row (the source wraps a failure as `"inserting user: %w"`). -/
def execUpdate (co : Collab) (usr : User) :
    Except GoErr Unit × List WriteCmd :=
  match co.execNamed (.updateUser usr) with
  | some err => (.error (.wrap "inserting user" err), [.updateUser usr])
  | none => (.ok (), [.updateUser usr])

/-- `user.Store.Update` (source lines 77-129): ID validation, payload
validation, `QueryByID` (which performs the ownership check), patching of
exactly the non-nil fields plus `DateUpdated = now`, then the UPDATE
statement. -/
def Update (co : Collab) (claims : Claims) (userID : String)
    (uu : UpdateUser) (now : Int) : Except GoErr Unit × List WriteCmd :=
  if !(co.checkID userID) then (.error .errInvalidID, [])
  else
    match co.checkUpdateUser uu with
    | some err => (.error (.wrap "validating data" err), [])
    | none =>
      match QueryByID co claims userID with
      | .error err =>
        if errIs err .errDBNotFound then (.error .errNotFound, [])
        else (.error (.wrap ("updating user userID[" ++ userID ++ "]") err), [])
      | .ok usr =>
        let usr1 : User :=
          { usr with
            Name := uu.Name.getD usr.Name
            Email := uu.Email.getD usr.Email
            Roles := uu.Roles.getD usr.Roles }
        match uu.Password with
        | some p =>
          match co.bcryptGenerate p with
          | .error err => (.error (.wrap "generating password hash" err), [])
          | .ok pw => execUpdate co { usr1 with PasswordHash := pw, DateUpdated := now }
        | none => execUpdate co { usr1 with DateUpdated := now }

end Store

/-- A JSON value, used to state the structure of serialized bodies
(`encoding/json` output is modelled at the level of this tree). -/
inductive Json where
  | str (s : String)
  | num (n : Int)
  | arr (elems : List Json)
  | obj (members : List (String × Json))
deriving Repr

/-- The element list of a JSON array (empty for non-arrays). -/
def Json.arrElems : Json → List Json
  | .arr xs => xs
  | _ => []

/-- `validate.ErrorResponse` (source lines 318-325): the form used for API
responses from failures; note that `Fields` is declared `string` with
`omitempty`. -/
structure ErrorResponse where
  Error : String
  Fields : String
deriving DecidableEq, Repr

/-- `encoding/json` marshalling of `ErrorResponse`: an object with an
`error` member and, when `Fields` is non-empty (`omitempty`), a `fields`
member holding the `Fields` string. -/
def errorResponseJson (er : ErrorResponse) : Json :=
  .obj (("error", .str er.Error) ::
    (if er.Fields = "" then [] else [("fields", .str er.Fields)]))

/-- `encoding/json` marshalling of a `validate.FieldErrors` collection
(source: `FieldErrors.Error` marshals the whole slice, whose elements have
tags `json:"field"` and `json:"error"`). -/
def fieldErrorsJson (fe : List FieldError) : Json :=
  .arr (fe.map (fun f => Json.obj [("field", .str f.Field), ("error", .str f.Error)]))

/-- The error-body shape claimed by the spec, written from the words of the
spec for comparison: `{ "error": string }` optionally extended with a
`"fields"` member that is an ARRAY of objects each with `"field"` and
`"error"` string members. -/
def specFieldEntryShape : Json → Bool
  | .obj [("field", .str _), ("error", .str _)] => true
  | _ => false

/-- The full claimed error-body shape, written from the words of the spec
(`{ "error": string, "fields": [ {"field": .., "error": ..}, ... ]? }`). -/
def specErrorBodyShape : Json → Bool
  | .obj [("error", .str _)] => true
  | .obj [("error", .str _), ("fields", .arr entries)] => entries.all specFieldEntryShape
  | _ => false

/-- Modelled from the spec: an asymmetric key pair of the Token Codec
(`auth` package, not under `src/`); the key material is abstracted to an
identifying value shared by the private and public halves. -/
structure KeyPair where
  material : Nat
deriving DecidableEq, Repr

/-- Modelled from the spec: the process-wide key set of the Token Codec,
addressable by key identifier, plus the currently active key identifier
(spec §3 Key Pair, §4.2). -/
structure Auth where
  keys : List (String × KeyPair)
  activeKID : String

/-- Key lookup by key identifier in the immutable key set. -/
def lookupKey (keys : List (String × KeyPair)) (kid : String) : Option KeyPair :=
  (keys.find? (fun p => p.1 == kid)).map (fun p => p.2)

/-- Modelled from the spec: signing a Claims payload with a key; the
signature is abstracted as the pair of the key material and the signed
payload, so that verification with the same key pair succeeds and any
other signature fails. -/
def sign (kp : KeyPair) (c : Claims) : Nat × Claims :=
  (kp.material, c)

/-- Modelled from the spec: a compact signed token — the Claims payload,
the embedded key identifier, and the signature (spec §3 Signed Token). -/
structure Token where
  payload : Claims
  kid : String
  sig : Nat × Claims
deriving DecidableEq, Repr

/-- Modelled from the spec: `Issue(claims) → token` serializes Claims,
signs with the private key for the currently active key identifier, and
fails only if the signing key is unavailable (spec §4.2). -/
def Issue (a : Auth) (c : Claims) : Except GoErr Token :=
  match lookupKey a.keys a.activeKID with
  | none => .error (.mk "signing key unavailable")
  | some kp => .ok { payload := c, kid := a.activeKID, sig := sign kp c }

/-- Modelled from the spec: `Parse(tokenString) → claims` resolves the
public key from the key identifier embedded in the token, verifies the
signature, and fails with an authentication error if the signature is
invalid, the key identifier is unknown, or the current time is outside the
validity window `[issued-at, expiry)` (expiry checked exclusively,
no leeway; spec §3 and §4.2). -/
def Parse (a : Auth) (now : Int) (t : Token) : Except GoErr Claims :=
  match lookupKey a.keys t.kid with
  | none => .error (.mk "unknown key id")
  | some kp =>
    if t.sig ≠ sign kp t.payload then .error (.mk "invalid signature")
    else if now < t.payload.IssuedAt ∨ t.payload.ExpiresAt ≤ now then
      .error (.mk "token expired")
    else .ok t.payload

/-- Modelled from the spec: the per-request response state of the Response
Writer — the mutable "response already started" flag and the responses
written to the wire for this request (spec §3 Request Context Values,
§4.3). -/
structure RespState where
  started : Bool
  wire : List (Nat × String)
deriving DecidableEq, Repr

/-- The per-request state at the start of a request: flag down, nothing
written. -/
def initRespState : RespState :=
  { started := false, wire := [] }

/-- Modelled from the spec: `Respond(result, statusCode)` encodes the
result to the wire and marks the per-request "already started" flag;
calling it twice for the same request is a programming-error condition
detected by the flag check, and the second call writes nothing
(spec §4.3). -/
def Respond (st : RespState) (data : String) (status : Nat) :
    Except GoErr RespState :=
  if st.started then .error (.mk "response already started")
  else .ok { started := true, wire := st.wire ++ [(status, data)] }

/-- Runs a sequence of `Respond` calls for one request; a detected
double-call leaves the state unchanged and the request continues. -/
def runResponds (st : RespState) : List (String × Nat) → RespState
  | [] => st
  | (d, s) :: rest =>
    match Respond st d s with
    | .ok st1 => runResponds st1 rest
    | .error _ => runResponds st rest

/-! Concrete sample values used by witnesses and counterexamples. -/

/-- A sample stored user row. -/
def sampleUser : User :=
  { ID := "u1", Name := "Alice", Email := "a@x.com", Roles := ["USER"]
    PasswordHash := "h1", DateCreated := 100, DateUpdated := 100 }

/-- Claims of a non-admin caller whose subject is not `"u1"`. -/
def nonAdminClaims : Claims :=
  { Issuer := "service project", Subject := "u2", ExpiresAt := 4600
    IssuedAt := 1000, Roles := ["USER"] }

/-- Claims of an admin caller. -/
def adminClaims : Claims :=
  { Issuer := "service project", Subject := "root", ExpiresAt := 4600
    IssuedAt := 1000, Roles := ["ADMIN"] }

/-- A sample collaborator bundle: one stored user (`sampleUser`), reachable
by ID `"u1"` and email `"a@x.com"`; IDs validate when non-empty; writes
succeed. -/
def c1Collab : Collab :=
  { checkID := fun s => s != ""
    checkUpdateUser := fun _ => none
    queryStructByID := fun uid =>
      if uid = "u1" then .ok sampleUser else .error .errDBNotFound
    queryStructByEmail := fun e =>
      if e = "a@x.com" then .ok sampleUser else .error .errDBNotFound
    querySliceUsers := fun _ _ => .ok [sampleUser]
    execNamed := fun _ => none
    bcryptCompare := fun h p => h == "h1" && p == "secret"
    bcryptGenerate := fun p => .ok ("bc-" ++ p) }

/-- A collaborator bundle for the authentication scenario: the stored
hash `"h1"` of the user matches exactly the password `"secret"`. -/
def c2Collab : Collab :=
  { checkID := fun s => s != ""
    checkUpdateUser := fun _ => none
    queryStructByID := fun _ => .error .errDBNotFound
    queryStructByEmail := fun e =>
      if e = "a@x.com" then .ok sampleUser else .error .errDBNotFound
    querySliceUsers := fun _ _ => .error .errDBNotFound
    execNamed := fun _ => none
    bcryptCompare := fun h p => h == "h1" && p == "secret"
    bcryptGenerate := fun p => .ok ("bc-" ++ p) }

/-- A collaborator bundle whose persistence layer reports its
distinguishable not-found condition (`database.ErrDBNotFound`) on every
query. -/
def c6Collab : Collab :=
  { checkID := fun s => s != ""
    checkUpdateUser := fun _ => none
    queryStructByID := fun _ => .error .errDBNotFound
    queryStructByEmail := fun _ => .error .errDBNotFound
    querySliceUsers := fun _ _ => .error .errDBNotFound
    execNamed := fun _ => none
    bcryptCompare := fun _ _ => false
    bcryptGenerate := fun p => .ok ("bc-" ++ p) }

/-- A sample update payload with only the name set (nil email, roles and
password pointers). -/
def sampleUpdate : UpdateUser :=
  { Name := some "Bob", Email := none, Roles := none, Password := none }

/-- A sample update payload with name and password set. -/
def sampleUpdatePw : UpdateUser :=
  { Name := some "Bob", Email := none, Roles := none, Password := some "newpw" }

/-- A sample non-empty field-error collection with two failing fields. -/
def sampleFieldErrors : List FieldError :=
  [{ Field := "email", Error := "email is not valid" },
   { Field := "name", Error := "name is required" }]

/-- A sample error response carrying field errors, as the service builds
them: `Fields` holds the pre-serialized JSON string of the field errors. -/
def sampleErrorResponse : ErrorResponse :=
  { Error := "data validation error"
    Fields := "[\x7b\"field\":\"email\",\"error\":\"email is not valid\"\x7d]" }

/-- A sample key set with one key pair under identifier `"kid1"`. -/
def sampleAuth : Auth :=
  { keys := [("kid1", { material := 7 })], activeKID := "kid1" }

/-- The key pair stored in `sampleAuth`. -/
def sampleKeyPair : KeyPair := { material := 7 }

/-- Sample claims with a validity window of `[1000, 4600)`. -/
def sampleClaims : Claims :=
  { Issuer := "service project", Subject := "u1", ExpiresAt := 4600
    IssuedAt := 1000, Roles := ["USER", "ADMIN"] }

/-- The token `Issue sampleAuth sampleClaims` produces. -/
def sampleToken : Token :=
  { payload := sampleClaims, kid := "kid1", sig := (7, sampleClaims) }

/-- A sample request run attempting two responses. -/
def sampleCalls : List (String × Nat) := [("first", 200), ("second", 500)]

/-- Claim C9: for every error value, `Cause` returns the innermost error of
the unwrap chain — an error whose `Unwrap` is nil — `Cause` is idempotent,
and for an unwrapped error `Cause` returns it unchanged. -/
theorem cause_root_idempotent (err : GoErr) :
    unwrap (Cause err) = none
    ∧ Cause (Cause err) = Cause err
    ∧ (unwrap err = none → Cause err = err) := by
  induction err
  case wrap msg inner ih =>
    refine ⟨?_, ?_, ?_⟩
    · simpa [Cause] using ih.1
    · simpa [Cause] using ih.2.1
    · intro h
      simp [unwrap] at h
  all_goals exact ⟨rfl, rfl, fun _ => rfl⟩

/-- Witness for C9 at the concrete unwrapped error `GoErr.mk "b"`. -/
theorem cause_root_idempotent_witness :
    Cause (GoErr.mk "b") = GoErr.mk "b"
    ∧ unwrap (Cause (GoErr.mk "b")) = none :=
  ⟨(cause_root_idempotent (GoErr.mk "b")).2.2 rfl,
   (cause_root_idempotent (GoErr.mk "b")).1⟩

/-- Claim C7: the structured serialization of a non-empty `FieldErrors`
collection enumerates every failing field in one output: it is an array
with one entry per field error, and the object for each field name with
its message appears in it. -/
theorem fieldErrors_enumerates_all (fe : List FieldError) (hne : fe ≠ []) :
    (∀ f ∈ fe, Json.obj [("field", .str f.Field), ("error", .str f.Error)]
        ∈ (fieldErrorsJson fe).arrElems)
    ∧ (fieldErrorsJson fe).arrElems.length = fe.length := by
  constructor
  · intro f hf
    simp only [fieldErrorsJson, Json.arrElems, List.mem_map]
    exact ⟨f, hf, rfl⟩
  · simp [fieldErrorsJson, Json.arrElems]

/-- Witness for C7 on `sampleFieldErrors`: the entry for the failing field
`"email"` appears, and both failing fields are enumerated. -/
theorem fieldErrors_enumerates_all_witness :
    sampleFieldErrors ≠ []
    ∧ Json.obj [("field", .str "email"), ("error", .str "email is not valid")]
        ∈ (fieldErrorsJson sampleFieldErrors).arrElems
    ∧ (fieldErrorsJson sampleFieldErrors).arrElems.length = 2 :=
  ⟨by decide,
   (fieldErrors_enumerates_all sampleFieldErrors (by decide)).1
     { Field := "email", Error := "email is not valid" } (by decide),
   ((fieldErrors_enumerates_all sampleFieldErrors (by decide)).2).trans (by decide)⟩

/-- Counterexample to claim C8: the serialized body of an error response
carrying field errors has a `fields` member that is a JSON STRING (because
`validate.ErrorResponse.Fields` is declared `string`), not an array of
`{field, error}` objects, so the shape claimed by the spec does not hold. -/
theorem errorResponse_fields_not_array :
    specErrorBodyShape (errorResponseJson sampleErrorResponse) = false := by
  decide

/-- Claim C8 amended: every serialized error response body is an object
with an `error` string member, optionally extended — when `Fields` is
non-empty — with a `fields` member holding a single JSON string (the
pre-serialized field errors), not an array. -/
theorem errorResponse_body_shape (er : ErrorResponse) :
    errorResponseJson er = .obj [("error", .str er.Error)]
    ∨ errorResponseJson er
        = .obj [("error", .str er.Error), ("fields", .str er.Fields)] := by
  by_cases h : er.Fields = "" <;> simp [errorResponseJson, h]

/-- Claim C2 (code bug evaluation): at wall-clock time 5000, with supplied
`now = 1000`, `Authenticate` on the stored user with the matching password
returns Claims with the stored subject and roles, but with expiry
`5000 + 3600` built from the wall clock — not `now + 3600 = 4600` as the
claim states, because the source body uses `time.Now()` and never reads
its `now` parameter. -/
theorem authenticate_ignores_supplied_now :
    Store.Authenticate c2Collab 5000 1000 "a@x.com" "secret"
      = .ok { Issuer := "service project", Subject := "u1"
              ExpiresAt := 8600, IssuedAt := 5000, Roles := ["USER"] }
    ∧ (8600 : Int) ≠ 1000 + 3600 := by
  constructor
  · decide
  · decide

/-- Claim C6 (code bug evaluation): when the persistence collaborator
reports `database.ErrDBNotFound`, `Query` and `Authenticate` return a
WRAPPED error — their guards compare against `ErrNotFound`, the own sentinel of the
user package, which the persistence layer never produces — while
`QueryByID` correctly maps the same condition to `ErrNotFound`. -/
theorem query_authenticate_miss_dbnotfound :
    Store.Query c6Collab 1 10 = .error (.wrap "selecting users" .errDBNotFound)
    ∧ Store.Query c6Collab 1 10 ≠ .error .errNotFound
    ∧ Store.Authenticate c6Collab 5000 5000 "a@x.com" "pw"
        = .error (.wrap "selecting email[a@x.com]" .errDBNotFound)
    ∧ Store.Authenticate c6Collab 5000 5000 "a@x.com" "pw" ≠ .error .errNotFound
    ∧ Store.QueryByID c6Collab adminClaims "u7" = .error .errNotFound := by
  refine ⟨by decide, by decide, by decide, by decide, by decide⟩

/-- Once the "already started" flag is up, every further `Respond` call is
rejected and the request state — in particular the wire — never changes. -/
theorem runResponds_of_started (st : RespState) (h : st.started = true) :
    ∀ calls, runResponds st calls = st := by
  intro calls
  induction calls with
  | nil => rfl
  | cons c rest ih =>
    obtain ⟨d, s⟩ := c
    simp [runResponds, Respond, h, ih]

/-- Claim C4: per request, the "already started" flag transitions from
false to true at most once and exactly one response reaches the wire: for
any nonempty sequence of `Respond` calls starting from the fresh request
state, the final state has the flag up and exactly one wire entry, and any
`Respond` call on a state whose flag is already up is detected and
rejected. -/
theorem respond_exactly_once (calls : List (String × Nat)) (hne : calls ≠ []) :
    (runResponds initRespState calls).started = true
    ∧ (runResponds initRespState calls).wire.length = 1
    ∧ (∀ st d s, st.started = true →
        Respond st d s = .error (.mk "response already started")) := by
  obtain ⟨c, rest, rfl⟩ : ∃ c rest, calls = c :: rest := by
    cases calls with
    | nil => exact absurd rfl hne
    | cons c rest => exact ⟨c, rest, rfl⟩
  obtain ⟨d, s⟩ := c
  have h1 : runResponds initRespState ((d, s) :: rest)
      = { started := true, wire := [(s, d)] } := by
    simp only [runResponds, Respond, initRespState, Bool.false_eq_true,
      if_false, List.nil_append]
    exact runResponds_of_started _ rfl rest
  refine ⟨by rw [h1], by rw [h1]; rfl, fun st d s h => by simp [Respond, h]⟩

/-- Witness for C4 on a request attempting two responses: only one entry
reaches the wire, and a second call on a started state is rejected. -/
theorem respond_exactly_once_witness :
    sampleCalls ≠ []
    ∧ (runResponds initRespState sampleCalls).started = true
    ∧ (runResponds initRespState sampleCalls).wire.length = 1
    ∧ Respond { started := true, wire := [] } "x" 200
        = .error (.mk "response already started") :=
  ⟨by decide,
   (respond_exactly_once sampleCalls (by decide)).1,
   (respond_exactly_once sampleCalls (by decide)).2.1,
   (respond_exactly_once sampleCalls (by decide)).2.2
     { started := true, wire := [] } "x" 200 rfl⟩

/-- Claim C3: for valid Claims whose validity window contains `now` and
whose expiry is strictly after `now`, parsing the token produced by
issuing those Claims returns exactly the original Claims — in particular
the original subject and role set. -/
theorem parse_issue_roundtrip (a : Auth) (kp : KeyPair) (c : Claims)
    (now : Int) (t : Token)
    (hkey : lookupKey a.keys a.activeKID = some kp)
    (hsub : c.Subject ≠ "") (hwin : c.IssuedAt < c.ExpiresAt)
    (hiat : c.IssuedAt ≤ now) (hexp : now < c.ExpiresAt)
    (hIssue : Issue a c = .ok t) :
    Parse a now t = .ok c := by
  have ht : t = { payload := c, kid := a.activeKID, sig := sign kp c } := by
    simp only [Issue, hkey] at hIssue
    exact (Except.ok.inj hIssue).symm
  subst ht
  simp only [Parse, hkey]
  rw [if_neg (by simp), if_neg (by push_neg; exact ⟨hiat, hexp⟩)]

/-- Witness for C3 on `sampleClaims` at time 2000 inside the validity
window `[1000, 4600)`. -/
theorem parse_issue_roundtrip_witness :
    lookupKey sampleAuth.keys sampleAuth.activeKID = some sampleKeyPair
    ∧ sampleClaims.Subject ≠ ""
    ∧ sampleClaims.IssuedAt < sampleClaims.ExpiresAt
    ∧ sampleClaims.IssuedAt ≤ 2000
    ∧ (2000 : Int) < sampleClaims.ExpiresAt
    ∧ Issue sampleAuth sampleClaims = .ok sampleToken
    ∧ Parse sampleAuth 2000 sampleToken = .ok sampleClaims :=
  ⟨by decide, by decide, by decide, by decide, by decide, by decide,
   parse_issue_roundtrip sampleAuth sampleKeyPair sampleClaims 2000
     sampleToken (by decide) (by decide) (by decide) (by decide) (by decide)
     (by decide)⟩

/-- Claim C1: for each ownership-checked operation (`Delete`, `QueryByID`,
`QueryByEmail`), a call on a (well-formed) target subject ID is rejected
with the forbidden error exactly when the caller is NOT an admin-role
holder AND the subject of the caller differs from the target subject ID — for
`QueryByEmail` the target subject ID is the owner ID of the fetched row.  The
well-formedness hypotheses say the target ID validates and the by-ID /
by-email fetches return the row keyed by the request (as the SQL `WHERE`
clauses guarantee). -/
theorem ownership_check_iff (co : Collab) (claims : Claims)
    (userID email : String) (usr : User)
    (hid : co.checkID userID = true)
    (hwf : ∀ u, co.queryStructByID userID = Except.ok u → u.ID = userID)
    (hem : co.queryStructByEmail email = Except.ok usr) :
    ((Store.Delete co claims userID).1 = .error .errForbidden
        ↔ ¬(claims.Authorized RoleAdmin = true ∨ claims.Subject = userID))
    ∧ (Store.QueryByID co claims userID = .error .errForbidden
        ↔ ¬(claims.Authorized RoleAdmin = true ∨ claims.Subject = userID))
    ∧ (Store.QueryByEmail co claims email = .error .errForbidden
        ↔ ¬(claims.Authorized RoleAdmin = true ∨ claims.Subject = usr.ID)) := by
  refine ⟨?_, ?_, ?_⟩
  · cases hA : claims.Authorized RoleAdmin with
    | true =>
      cases hE : co.execNamed (.deleteUser userID) with
      | none => simp [Store.Delete, hid, hA, hE]
      | some e => simp [Store.Delete, hid, hA, hE]
    | false =>
      by_cases hS : claims.Subject = userID
      · cases hE : co.execNamed (.deleteUser userID) with
        | none => simp [Store.Delete, hid, hA, hS, hE]
        | some e => simp [Store.Delete, hid, hA, hS, hE]
      · simp [Store.Delete, hid, hA, hS]
  · cases hA : claims.Authorized RoleAdmin with
    | true =>
      cases hF : co.queryStructByID userID with
      | error e =>
        by_cases hD : e = GoErr.errDBNotFound
        · simp [Store.QueryByID, hid, hA, hF, hD]
        · simp [Store.QueryByID, hid, hA, hF, hD]
      | ok u => simp [Store.QueryByID, hid, hA, hF]
    | false =>
      by_cases hS : claims.Subject = userID
      · cases hF : co.queryStructByID userID with
        | error e =>
          by_cases hD : e = GoErr.errDBNotFound
          · simp [Store.QueryByID, hid, hA, hS, hF, hD]
          · simp [Store.QueryByID, hid, hA, hS, hF, hD]
        | ok u =>
          have hu : u.ID = userID := hwf u hF
          simp [Store.QueryByID, hid, hA, hS, hF, hu]
      · simp [Store.QueryByID, hid, hA, hS]
  · cases hA : claims.Authorized RoleAdmin with
    | true => simp [Store.QueryByEmail, hem, hA]
    | false =>
      by_cases hS : claims.Subject = usr.ID
      · simp [Store.QueryByEmail, hem, hA, hS]
      · simp [Store.QueryByEmail, hem, hA, hS]

/-- Witness for C1: a non-admin caller with subject `"u2"` targeting the
user `"u1"` is rejected with the forbidden error on all three operations. -/
theorem ownership_check_iff_witness :
    c1Collab.checkID "u1" = true
    ∧ c1Collab.queryStructByEmail "a@x.com" = Except.ok sampleUser
    ∧ ((Store.Delete c1Collab nonAdminClaims "u1").1 = .error .errForbidden
        ↔ ¬(nonAdminClaims.Authorized RoleAdmin = true
            ∨ nonAdminClaims.Subject = "u1"))
    ∧ (Store.QueryByID c1Collab nonAdminClaims "u1" = .error .errForbidden
        ↔ ¬(nonAdminClaims.Authorized RoleAdmin = true
            ∨ nonAdminClaims.Subject = "u1"))
    ∧ (Store.QueryByEmail c1Collab nonAdminClaims "a@x.com"
          = .error .errForbidden
        ↔ ¬(nonAdminClaims.Authorized RoleAdmin = true
            ∨ nonAdminClaims.Subject = sampleUser.ID)) :=
  ⟨by decide, by decide,
   (ownership_check_iff c1Collab nonAdminClaims "u1" "a@x.com" sampleUser
      (by decide)
      (by
        intro u h
        have h0 : c1Collab.queryStructByID "u1" = Except.ok sampleUser := by
          decide
        rw [h0] at h
        rw [← Except.ok.inj h]
        decide)
      (by decide)).1,
   (ownership_check_iff c1Collab nonAdminClaims "u1" "a@x.com" sampleUser
      (by decide)
      (by
        intro u h
        have h0 : c1Collab.queryStructByID "u1" = Except.ok sampleUser := by
          decide
        rw [h0] at h
        rw [← Except.ok.inj h]
        decide)
      (by decide)).2.1,
   (ownership_check_iff c1Collab nonAdminClaims "u1" "a@x.com" sampleUser
      (by decide)
      (by
        intro u h
        have h0 : c1Collab.queryStructByID "u1" = Except.ok sampleUser := by
          decide
        rw [h0] at h
        rw [← Except.ok.inj h]
        decide)
      (by decide)).2.2⟩

/-- Claim C5: a `Delete` or `Update` call by a non-admin caller whose
subject differs from the (well-formed) target user ID fails with the
forbidden error — for `Update` it is the forbidden error of the ownership
check wrapped with the call context, which `errors.Is`-matches
`ErrForbidden` — and neither operation issues any persistence write on
that path (the write-command list is empty, so the state is unchanged). -/
theorem forbidden_no_mutation (co : Collab) (claims : Claims)
    (userID : String) (uu : UpdateUser) (now : Int)
    (hid : co.checkID userID = true)
    (hval : co.checkUpdateUser uu = none)
    (hadm : claims.Authorized RoleAdmin = false)
    (hsub : claims.Subject ≠ userID) :
    Store.Delete co claims userID = (.error .errForbidden, [])
    ∧ Store.Update co claims userID uu now
        = (.error (.wrap ("updating user userID[" ++ userID ++ "]")
            .errForbidden), [])
    ∧ errIs (.wrap ("updating user userID[" ++ userID ++ "]") .errForbidden)
        .errForbidden = true := by
  have hq : Store.QueryByID co claims userID = .error .errForbidden := by
    simp [Store.QueryByID, hid, hadm, hsub]
  refine ⟨by simp [Store.Delete, hid, hadm, hsub], ?_, ?_⟩
  · simp [Store.Update, hid, hval, hq, errIs]
  · rw [errIs]
    simp [errIs]

/-- Witness for C5: the non-admin caller `"u2"` targeting `"u1"` gets the
forbidden error from both operations and no write command is issued. -/
theorem forbidden_no_mutation_witness :
    c1Collab.checkID "u1" = true
    ∧ c1Collab.checkUpdateUser sampleUpdate = none
    ∧ nonAdminClaims.Authorized RoleAdmin = false
    ∧ nonAdminClaims.Subject ≠ "u1"
    ∧ Store.Delete c1Collab nonAdminClaims "u1" = (.error .errForbidden, [])
    ∧ Store.Update c1Collab nonAdminClaims "u1" sampleUpdate 2000
        = (.error (.wrap ("updating user userID[" ++ "u1" ++ "]")
            .errForbidden), []) :=
  ⟨by decide, by decide, by decide, by decide,
   (forbidden_no_mutation c1Collab nonAdminClaims "u1" sampleUpdate 2000
      (by decide) (by decide) (by decide) (by decide)).1,
   (forbidden_no_mutation c1Collab nonAdminClaims "u1" sampleUpdate 2000
      (by decide) (by decide) (by decide) (by decide)).2.1⟩

/-- Claim C10: an authorized `Update` that reaches the write issues exactly
one UPDATE command whose row replaces only the attributes with non-nil
`UpdateUser` fields (`Option.getD` keeps the stored value when the field
is `none`), keeps `ID` and `DateCreated` untouched, and always sets
`DateUpdated` to the supplied `now`. -/
theorem update_frame (co : Collab) (claims : Claims) (userID : String)
    (uu : UpdateUser) (now : Int) (usr : User) (pw : String)
    (hid : co.checkID userID = true)
    (hval : co.checkUpdateUser uu = none)
    (hq : Store.QueryByID co claims userID = .ok usr)
    (hpw : ∀ p, uu.Password = some p → co.bcryptGenerate p = .ok pw) :
    (Store.Update co claims userID uu now).2
      = [.updateUser
          { ID := usr.ID
            Name := uu.Name.getD usr.Name
            Email := uu.Email.getD usr.Email
            Roles := uu.Roles.getD usr.Roles
            PasswordHash := match uu.Password with
              | some _ => pw
              | none => usr.PasswordHash
            DateCreated := usr.DateCreated
            DateUpdated := now }] := by
  cases hP : uu.Password with
  | none =>
    cases hE : co.execNamed (.updateUser
        { ID := usr.ID
          Name := uu.Name.getD usr.Name
          Email := uu.Email.getD usr.Email
          Roles := uu.Roles.getD usr.Roles
          PasswordHash := usr.PasswordHash
          DateCreated := usr.DateCreated
          DateUpdated := now }) with
    | none => simp [Store.Update, Store.execUpdate, hid, hval, hq, hP, hE]
    | some e => simp [Store.Update, Store.execUpdate, hid, hval, hq, hP, hE]
  | some p =>
    have hg := hpw p hP
    cases hE : co.execNamed (.updateUser
        { ID := usr.ID
          Name := uu.Name.getD usr.Name
          Email := uu.Email.getD usr.Email
          Roles := uu.Roles.getD usr.Roles
          PasswordHash := pw
          DateCreated := usr.DateCreated
          DateUpdated := now }) with
    | none => simp [Store.Update, Store.execUpdate, hid, hval, hq, hP, hg, hE]
    | some e => simp [Store.Update, Store.execUpdate, hid, hval, hq, hP, hg, hE]

/-- Witness for C10: an admin updating user `"u1"` with a new name and
password leaves email, roles and `DateCreated` unchanged and stamps
`DateUpdated` with the supplied time. -/
theorem update_frame_witness :
    c1Collab.checkID "u1" = true
    ∧ c1Collab.checkUpdateUser sampleUpdatePw = none
    ∧ Store.QueryByID c1Collab adminClaims "u1" = Except.ok sampleUser
    ∧ c1Collab.bcryptGenerate "newpw" = Except.ok "bc-newpw"
    ∧ (Store.Update c1Collab adminClaims "u1" sampleUpdatePw 2000).2
        = [.updateUser
            { ID := "u1", Name := "Bob", Email := "a@x.com"
              Roles := ["USER"], PasswordHash := "bc-newpw"
              DateCreated := 100, DateUpdated := 2000 }] :=
  ⟨by decide, by decide, by decide, by decide,
   update_frame c1Collab adminClaims "u1" sampleUpdatePw 2000 sampleUser
     "bc-newpw" (by decide) (by decide) (by decide)
     (by
       intro p h
       rw [← Option.some.inj h]
       decide)⟩

end Service
